import Mathlib

/-!
Shallow embedding of the core of the `cd_player` repository, for checking its
natural-language specification.

Three components are embedded, each translated from the Python source:
* `CDPlayer` (src/cd/cd_player.py): playback-controller state and the public
  transport operations, with the external decoder process modelled by an
  environment oracle (`LoadEnv`) saying when the spawned process dies and
  whether control-channel writes succeed.
* `MenuSystem` (src/menu/menu_system.py): menu navigation state and the
  next/previous navigation operations.
* `GPIOHandler` (src/hardware/gpio_handler.py): the button-poll loop's
  play/pause edge handling and click/double-click/long-press arbitration.

Wall-clock instants are modelled as rationals (Python floats from
`time.time()`); seconds-since-spawn counters as naturals.
-/

namespace CdPlayer

/-- Python `int(x)` truncates a float toward zero. -/
def pytrunc (x : ℚ) : ℤ := if 0 ≤ x then ⌊x⌋ else ⌈x⌉

/-- A spawned decoder process, identified by the instant (in whole seconds
after spawn) at which it exits; `none` means it stays alive throughout the
modelled window.  This is the environment's choice, fixed at spawn time. -/
abbrev ProcHandle := Option ℕ

/-- `poll()`-style liveness of a process `k` seconds after spawn:
alive iff it has not yet exited. -/
def aliveAt (p : ProcHandle) (k : ℕ) : Bool :=
  match p with
  | none => true
  | some d => decide (k < d)

/-- The mutable fields of `CDPlayer` (src/cd/cd_player.py, `__init__`)
that the playback claims are about.  `track_file` models the persisted
current-track marker file (`TRACK_FILE`); `track_lengths`, the LCD, and the
collaborator objects are omitted as no claim mentions them. -/
structure PlayerState where
  mplayer_process : Option ProcHandle
  current_track : ℤ
  total_tracks : ℤ
  is_playing : Bool
  playback_start_time : Option ℚ
  current_track_start : Option ℚ
  pause_start_time : Option ℚ
  total_pause_duration : ℚ
  mplayer_ready : Bool
  startup_check_count : ℕ
  track_file : ℤ
  deriving DecidableEq

/-- `CDPlayer.__init__`: initial field values.  (`TRACK_FILE` is not written
by the constructor; its startup content is modelled as `1`, matching the
fallback in `get_current_track`.) -/
def initState : PlayerState :=
  { mplayer_process := none
    current_track := 1
    total_tracks := 1
    is_playing := false
    playback_start_time := none
    current_track_start := none
    pause_start_time := none
    total_pause_duration := 0
    mplayer_ready := false
    startup_check_count := 0
    track_file := 1 }

/-- `CDPlayer.is_mplayer_alive`, observed `k` seconds after the current
process (if any) was spawned: `False` when no process handle is held,
otherwise the `poll()` result. -/
def is_mplayer_alive (s : PlayerState) (k : ℕ) : Bool :=
  match s.mplayer_process with
  | none => false
  | some p => aliveAt p k

/-- `CDPlayer.reset_timing`. -/
def reset_timing (s : PlayerState) : PlayerState :=
  { s with playback_start_time := none
           current_track_start := none
           pause_start_time := none
           total_pause_duration := 0
           mplayer_ready := false
           startup_check_count := 0 }

/-- `CDPlayer.stop_playback`: terminate any process, drop the handle, clear
`is_playing`, reset timing.  (The graceful-terminate/force-kill sequence has
no effect on the modelled state beyond dropping the handle.) -/
def stop_playback (s : PlayerState) : PlayerState :=
  reset_timing { s with mplayer_process := none, is_playing := false }

/-- Environment oracle for one `load_track` / `load_track_paused` call:
when the newly spawned process dies (`deathTime`), whether the initial
`pause` control-channel write succeeds (`pauseCmdOk`), and the wall-clock
instant of the spawn (`t0`). -/
structure LoadEnv where
  deathTime : ProcHandle
  pauseCmdOk : Bool
  t0 : ℚ
  deriving DecidableEq

/-- The `for i in range(10)` liveness loop of `load_track_paused`
(src/cd/cd_player.py lines 268-285), recursing on the remaining iteration
count (`fuel`), with `i` the Python loop index.  Each iteration sleeps 1s
(so the liveness check of iteration `i` happens `i+1` seconds after spawn),
returns failure if the process has died, and at `i == 2` sends the initial
`pause` command, recording `pause_start_time` at that instant when the
write succeeds. -/
def pausedLoop (p : ProcHandle) (pauseOk : Bool) (t0 : ℚ) :
    ℕ → ℕ → PlayerState → PlayerState × Bool
  | 0, _, s => (s, true)
  | fuel + 1, i, s =>
    if aliveAt p (i + 1) = false then (s, false)
    else
      pausedLoop p pauseOk t0 fuel (i + 1)
        (if i = 2 ∧ pauseOk then
          { s with pause_start_time := some (t0 + 3) } else s)

/-- The assignment sequence both load operations perform right after
spawning the decoder process (src/cd/cd_player.py lines 252-264 and
338-350): hold the new process handle, record the requested track (state
field, and marker file via `safe_write_file(TRACK_FILE, ...)`), set
`is_playing` to the load mode, and reset all timing fields. -/
def afterSpawn (s : PlayerState) (track : ℤ) (env : LoadEnv)
    (playing : Bool) : PlayerState :=
  { reset_timing
      { stop_playback s with
          mplayer_process := some env.deathTime
          current_track := track
          is_playing := playing } with
    track_file := track }

/-- The tail of `load_track_paused` after its liveness loop (src/cd/
cd_player.py lines 287-293): a loop failure is returned as-is; otherwise
liveness is re-checked 10 seconds after spawn. -/
def finishPausedLoad (r : PlayerState × Bool) : PlayerState × Bool :=
  if r.2 = false then (r.1, false)
  else if is_mplayer_alive r.1 10 then (r.1, true)
  else (r.1, false)

/-- `CDPlayer.load_track_paused`: range-check, stop old session, spawn,
record track, run the liveness loop, then re-check liveness (10 seconds
after spawn).  The Python exception path (`Popen`/file errors) is outside
the model: spawning always yields a process handle, whose subsequent life
is `env.deathTime`'s choice. -/
def load_track_paused (s : PlayerState) (track : ℤ) (env : LoadEnv) :
    PlayerState × Bool :=
  if ¬(1 ≤ track ∧ track ≤ s.total_tracks) then (s, false)
  else
    finishPausedLoad (pausedLoop env.deathTime env.pauseCmdOk env.t0 10 0
      (afterSpawn s track env false))

/-- `CDPlayer.load_track`: range-check, stop old session, spawn, record
track, set `is_playing`, reset timing, sleep 2s, fail if the process died
in that window.  As for `load_track_paused`, the exception path is outside
the model. -/
def load_track (s : PlayerState) (track : ℤ) (env : LoadEnv) :
    PlayerState × Bool :=
  if ¬(1 ≤ track ∧ track ≤ s.total_tracks) then (s, false)
  else
    if aliveAt env.deathTime 2 = false then (afterSpawn s track env true, false)
    else (afterSpawn s track env true, true)

/-- `CDPlayer.send_command`: fails immediately when the process is not
alive; otherwise the write (direct, with the `sudo -u` fallback) succeeds
iff the environment says so (`writeOk`). -/
def send_command (s : PlayerState) (k : ℕ) (writeOk : Bool) : Bool :=
  if is_mplayer_alive s k = false then false else writeOk

/-- `CDPlayer.play_pause`, observed `k` seconds after spawn with
control-channel oracle `writeOk` at wall-clock `now`: reject when the
process is not alive or not ready; otherwise send `pause` and, only when
the send succeeded, flip `is_playing`, recording `pause_start_time` on
pause and folding the finished pause interval into `total_pause_duration`
on resume (Python's truthiness test `if self.pause_start_time` is modelled
by the `Option` match). -/
def play_pause (s : PlayerState) (k : ℕ) (writeOk : Bool) (now : ℚ) :
    PlayerState :=
  if is_mplayer_alive s k = false then s
  else if s.mplayer_ready = false then s
  else if send_command s k writeOk then
    if s.is_playing then
      { s with pause_start_time := some now, is_playing := false }
    else
      match s.pause_start_time with
      | some p =>
        { s with total_pause_duration := s.total_pause_duration + (now - p)
                 pause_start_time := none
                 is_playing := true }
      | none => { s with is_playing := true }
  else s

/-- `CDPlayer.previous_track`: silently a no-op at the lower boundary,
otherwise `load_track(current - 1)` (its Boolean result only guards a
print). -/
def previous_track (s : PlayerState) (env : LoadEnv) : PlayerState :=
  if 1 < s.current_track then (load_track s (s.current_track - 1) env).1
  else s

/-- `CDPlayer.next_track`: silently a no-op at the upper boundary,
otherwise `load_track(current + 1)`. -/
def next_track (s : PlayerState) (env : LoadEnv) : PlayerState :=
  if s.current_track < s.total_tracks then
    (load_track s (s.current_track + 1) env).1
  else s

/-- `CDPlayer.get_elapsed_time` at wall-clock `now`: zero before the
session is ready; otherwise elapsed-since-track-start minus accumulated
pause time, minus the running pause interval when paused with a recorded
pause start, truncated to an integer and clamped at zero.  (Python's
truthiness test `if self.pause_start_time` is the `Option` match.) -/
def get_elapsed_time (s : PlayerState) (now : ℚ) : ℤ :=
  match s.mplayer_ready, s.current_track_start with
  | true, some cts =>
    let total_elapsed := now - cts
    let e1 := total_elapsed - s.total_pause_duration
    let e2 := if s.is_playing = false then
        match s.pause_start_time with
        | some p => e1 - (now - p)
        | none => e1
      else e1
    max 0 (pytrunc e2)
  | _, _ => 0

/-- A session whose liveness probe has completed (`check_mplayer_ready`
has set `mplayer_ready` and recorded track start 0), with the given play
flag: a concrete state used to instantiate the timing theorems. -/
def readySession (playing : Bool) : PlayerState :=
  { initState with mplayer_ready := true
                   current_track_start := some 0
                   is_playing := playing }

/-- A ready playing session that also holds a live process handle. -/
def liveReadySession : PlayerState :=
  { readySession true with mplayer_process := some none }

/-- A ready session paused 3 seconds in with 1 second of earlier
accumulated pause. -/
def pausedSession : PlayerState :=
  { readySession false with pause_start_time := some 3
                            total_pause_duration := 1 }

/-- The public transport operations of claim C4, each packaged with its
environment-oracle arguments. -/
inductive PlayerOp where
  | opLoadTrack (track : ℤ) (env : LoadEnv)
  | opLoadTrackPaused (track : ℤ) (env : LoadEnv)
  | opPlayPause (k : ℕ) (writeOk : Bool) (now : ℚ)
  | opStop
  | opNextTrack (env : LoadEnv)
  | opPrevTrack (env : LoadEnv)

/-- One public operation applied to the controller state (Boolean results
discarded). -/
def playerStep (s : PlayerState) : PlayerOp → PlayerState
  | .opLoadTrack t env => (load_track s t env).1
  | .opLoadTrackPaused t env => (load_track_paused s t env).1
  | .opPlayPause k ok now => play_pause s k ok now
  | .opStop => stop_playback s
  | .opNextTrack env => next_track s env
  | .opPrevTrack env => previous_track s env

/-- The §3 invariant: while playing, no pause start is recorded. -/
def playInv (s : PlayerState) : Prop :=
  s.is_playing = true → s.pause_start_time = none

instance : DecidablePred playInv := fun s => by unfold playInv; infer_instance

end CdPlayer

namespace MenuSys

/-- The navigation-relevant mutable fields of `MenuSystem`
(src/menu/menu_system.py, `__init__`).  `menu_items` is mutable in the
source (`add_menu_item`/`remove_menu_item`) and so lives in the state;
the LCD, the device lists, and `cd_player.total_tracks` are external
collaborators and are passed to the operations that read them. -/
structure MenuState where
  in_menu : Bool
  in_submenu : Bool
  in_action_menu : Bool
  in_tracks_menu : Bool
  menu_items : List String
  current_menu_item : ℤ
  selected_audio_device_index : ℤ
  selected_bluetooth_device_index : ℤ
  selected_action_index : ℤ
  selected_track_index : ℤ
  menu_timeout : ℚ
  current_actions : List String
  deriving DecidableEq

/-- `MenuSystem.__init__` menu state (timeout starts at 0). -/
def initMenu : MenuState :=
  { in_menu := false
    in_submenu := false
    in_action_menu := false
    in_tracks_menu := false
    menu_items := ["Tracks", "Audio Output", "Bluetooth", "Exit Menu"]
    current_menu_item := 0
    selected_audio_device_index := 0
    selected_bluetooth_device_index := 0
    selected_action_index := 0
    selected_track_index := 0
    menu_timeout := 0
    current_actions := [] }

/-- `self.menu_items[self.current_menu_item]`.  The navigation operations
keep the index in `[0, len)`; out-of-range (which would raise in Python)
is mapped to `""`, which matches no menu-item name. -/
def currentItem (m : MenuState) : String :=
  (m.menu_items.get? m.current_menu_item.toNat).getD ""

/-- `MenuSystem.menu_next`: at root depth, advance `current_menu_item`
cyclically and refresh the 30-second timeout; otherwise do nothing.
(Python `%` on a positive modulus agrees with `Int.emod`.) -/
def menu_next (now : ℚ) (m : MenuState) : MenuState :=
  if m.in_menu ∧ ¬m.in_submenu ∧ ¬m.in_action_menu ∧ ¬m.in_tracks_menu then
    { m with current_menu_item :=
               (m.current_menu_item + 1) % (m.menu_items.length : ℤ)
             menu_timeout := now + 30 }
  else m

/-- `MenuSystem.menu_previous`. -/
def menu_previous (now : ℚ) (m : MenuState) : MenuState :=
  if m.in_menu ∧ ¬m.in_submenu ∧ ¬m.in_action_menu ∧ ¬m.in_tracks_menu then
    { m with current_menu_item :=
               (m.current_menu_item - 1) % (m.menu_items.length : ℤ)
             menu_timeout := now + 30 }
  else m

/-- `MenuSystem.submenu_next`.  `audioDevices` / `btDevices` are the
collaborator-owned lists (`audio_manager.available_devices`,
`bluetooth_menu.bluetooth_devices`) and `totalTracks` is
`cd_player.total_tracks`.  Note that in the `in_submenu` branch the
timeout refresh sits outside the per-item guards, so it happens even when
the relevant device list is empty; in the action-menu and tracks branches
an empty/zero-length list short-circuits the whole mutation. -/
def submenu_next (now : ℚ) (audioDevices btDevices : List String)
    (totalTracks : ℤ) (m : MenuState) : MenuState :=
  if m.in_action_menu then
    if m.current_actions ≠ [] then
      { m with selected_action_index :=
                 (m.selected_action_index + 1) % (m.current_actions.length : ℤ)
               menu_timeout := now + 30 }
    else m
  else if m.in_tracks_menu then
    if 0 < totalTracks then
      { m with selected_track_index :=
                 (m.selected_track_index + 1) % totalTracks
               menu_timeout := now + 30 }
    else m
  else if m.in_submenu then
    let m' :=
      if currentItem m = "Audio Output" then
        if audioDevices ≠ [] then
          { m with selected_audio_device_index :=
                     (m.selected_audio_device_index + 1) % (audioDevices.length : ℤ) }
        else m
      else if currentItem m = "Bluetooth" then
        if btDevices ≠ [] then
          { m with selected_bluetooth_device_index :=
                     (m.selected_bluetooth_device_index + 1) % (btDevices.length : ℤ) }
        else m
      else m
    { m' with menu_timeout := now + 30 }
  else m

/-- `MenuSystem.submenu_previous`. -/
def submenu_previous (now : ℚ) (audioDevices btDevices : List String)
    (totalTracks : ℤ) (m : MenuState) : MenuState :=
  if m.in_action_menu then
    if m.current_actions ≠ [] then
      { m with selected_action_index :=
                 (m.selected_action_index - 1) % (m.current_actions.length : ℤ)
               menu_timeout := now + 30 }
    else m
  else if m.in_tracks_menu then
    if 0 < totalTracks then
      { m with selected_track_index :=
                 (m.selected_track_index - 1) % totalTracks
               menu_timeout := now + 30 }
    else m
  else if m.in_submenu then
    let m' :=
      if currentItem m = "Audio Output" then
        if audioDevices ≠ [] then
          { m with selected_audio_device_index :=
                     (m.selected_audio_device_index - 1) % (audioDevices.length : ℤ) }
        else m
      else if currentItem m = "Bluetooth" then
        if btDevices ≠ [] then
          { m with selected_bluetooth_device_index :=
                     (m.selected_bluetooth_device_index - 1) % (btDevices.length : ℤ) }
        else m
      else m
    { m' with menu_timeout := now + 30 }
  else m

/-- Root depth: inside the menu but in none of the deeper levels. -/
def atRoot (m : MenuState) : Prop :=
  m.in_menu = true ∧ m.in_submenu = false ∧ m.in_action_menu = false ∧
    m.in_tracks_menu = false

instance : DecidablePred atRoot := fun m => by unfold atRoot; infer_instance

/-- The state `enter_menu` produces (root depth, selection reset),
timeout aside: a concrete root-menu state. -/
def rootMenuState : MenuState := { initMenu with in_menu := true }

/-- A concrete state inside the `Audio Output` submenu
(`menu_items[1] = "Audio Output"`). -/
def audioSubmenuState : MenuState :=
  { initMenu with in_menu := true, in_submenu := true, current_menu_item := 1 }

end MenuSys

namespace Gpio

/-- The gestures the disambiguator reports to its callback handler
(`on_menu_enter`, `on_play_pause_single_click`,
`on_play_pause_double_click`). -/
inductive GEvent where
  | singleClick
  | doubleClick
  | longPress
  deriving DecidableEq

/-- The play/pause-button arbitration state of `GPIOHandler`
(src/hardware/gpio_handler.py): the constructor fields plus the
`_monitor_buttons` locals for that button.  `single_click_timer` holds the
deadline of the armed one-shot timer; `prev_play_state` is the previous
pin sample (`true` = high = released, the pull-up idle level) and
`play_button_press_start` the loop-local press instant. -/
structure GpioState where
  last_play_pause_press_time : ℚ
  pending_single_click : Bool
  single_click_timer : Option ℚ
  long_press_triggered : Bool
  play_button_press_start : ℚ
  prev_play_state : Bool
  deriving DecidableEq

/-- `GPIOHandler.__init__` plus the `_monitor_buttons` initial locals
(`prev_states[0] = 1`, `play_button_press_start = 0`). -/
def initGpio : GpioState :=
  { last_play_pause_press_time := 0
    pending_single_click := false
    single_click_timer := none
    long_press_triggered := false
    play_button_press_start := 0
    prev_play_state := true }

/-- `self.double_click_threshold = 0.4`. -/
def DOUBLE_CLICK_THRESHOLD : ℚ := 2 / 5

/-- `GPIOHandler._cancel_pending_single_click`. -/
def cancel_pending_single_click (s : GpioState) : GpioState :=
  { s with single_click_timer := none, pending_single_click := false }

/-- `GPIOHandler._handle_play_pause_click` at release instant `now`:
within the double-click window of the last candidate, cancel the pending
single click, emit `DoubleClick`, and zero the candidate instant;
otherwise record a fresh single-click candidate and (re)arm the one-shot
timer for `now + 0.4`. -/
def handle_play_pause_click (now : ℚ) (s : GpioState) :
    GpioState × List GEvent :=
  if now - s.last_play_pause_press_time < DOUBLE_CLICK_THRESHOLD then
    ({ cancel_pending_single_click s with last_play_pause_press_time := 0 },
     [GEvent.doubleClick])
  else
    ({ s with last_play_pause_press_time := now
              pending_single_click := true
              single_click_timer := some (now + DOUBLE_CLICK_THRESHOLD) },
     [])

/-- `GPIOHandler._execute_pending_single_click`: the armed one-shot timer
firing (the timer object is consumed); it emits `SingleClick` only if
still pending. -/
def fire_single_click_timer (s : GpioState) : GpioState × List GEvent :=
  if s.pending_single_click then
    ({ s with pending_single_click := false, single_click_timer := none },
     [GEvent.singleClick])
  else ({ s with single_click_timer := none }, [])

/-- One `_monitor_buttons` iteration's play/pause-button handling at
sample instant `now` with pin sample `level` (`true` = high = released):
the press-edge / long-press / release-edge `elif` chain of lines 86-105,
followed by `prev_states = current_states`.  (The previous/next buttons
are handled independently in the same loop and are not modelled; the
timer callback runs on its own thread and is `fire_single_click_timer`.) -/
def monitor_tick (now : ℚ) (level : Bool) (s : GpioState) :
    GpioState × List GEvent :=
  if level = false ∧ s.prev_play_state = true then
    ({ s with play_button_press_start := now
              long_press_triggered := false
              prev_play_state := level }, [])
  else if level = false ∧ 2 < now - s.play_button_press_start then
    if s.long_press_triggered = false then
      ({ cancel_pending_single_click s with
           long_press_triggered := true
           prev_play_state := level }, [GEvent.longPress])
    else ({ s with prev_play_state := level }, [])
  else if s.prev_play_state = false ∧ level = true then
    let hold := now - s.play_button_press_start
    if hold < 2 ∧ s.long_press_triggered = false then
      let r := handle_play_pause_click now s
      ({ r.1 with prev_play_state := level }, r.2)
    else ({ s with prev_play_state := level }, [])
  else ({ s with prev_play_state := level }, [])

/-- A sequence of poll-loop iterations (instant, pin sample), collecting
emitted gestures in order. -/
def runTicks : GpioState → List (ℚ × Bool) → GpioState × List GEvent
  | s, [] => (s, [])
  | s, (t, lvl) :: rest =>
    (((runTicks (monitor_tick t lvl s).1 rest)).1,
      (monitor_tick t lvl s).2 ++ (runTicks (monitor_tick t lvl s).1 rest).2)

/-- How many `LongPressStart` gestures a trace contains. -/
def countLongPress : List GEvent → ℕ
  | [] => 0
  | GEvent.longPress :: rest => countLongPress rest + 1
  | _ :: rest => countLongPress rest

/-- The arbitration state with the play/pause button observed down
(mid press-hold cycle, pressed at instant 0). -/
def heldGpioState : GpioState := { initGpio with prev_play_state := false }

end Gpio


namespace CdPlayer

/-- The liveness loop of `load_track_paused` only ever touches
`pause_start_time`; every other field of the state it returns is the one
it was given. -/
lemma pausedLoop_fields (p : ProcHandle) (ok : Bool) (t0 : ℚ) :
    ∀ fuel i s,
      (pausedLoop p ok t0 fuel i s).1.is_playing = s.is_playing ∧
      (pausedLoop p ok t0 fuel i s).1.mplayer_process = s.mplayer_process ∧
      (pausedLoop p ok t0 fuel i s).1.current_track = s.current_track ∧
      (pausedLoop p ok t0 fuel i s).1.track_file = s.track_file := by
  intro fuel
  induction fuel with
  | zero => intro i s; simp [pausedLoop]
  | succ n ih =>
    intro i s
    simp only [pausedLoop]
    split
    · simp
    · rcases ih (i + 1)
        (if i = 2 ∧ ok then { s with pause_start_time := some (t0 + 3) } else s)
        with ⟨h1, h2, h3, h4⟩
      constructor
      · rw [h1]; split <;> rfl
      constructor
      · rw [h2]; split <;> rfl
      constructor
      · rw [h3]; split <;> rfl
      · rw [h4]; split <;> rfl

/-- If the spawned process exits within the loop's window, the liveness
loop reports failure. -/
lemma pausedLoop_dead (ok : Bool) (t0 : ℚ) (d : ℕ) :
    ∀ fuel i s, d ≤ i + fuel → 0 < fuel →
      (pausedLoop (some d) ok t0 fuel i s).2 = false := by
  intro fuel
  induction fuel with
  | zero => intro i s _ h; omega
  | succ n ih =>
    intro i s hle _
    simp only [pausedLoop]
    by_cases hd : i + 1 < d
    · have ha : aliveAt (some d) (i + 1) = true := by
        simp [aliveAt]; omega
      rw [if_neg (by simp [ha])]
      exact ih (i + 1) _ (by omega) (by omega)
    · have ha : aliveAt (some d) (i + 1) = false := by
        simp [aliveAt]; omega
      rw [if_pos (by simp [ha])]

@[simp] lemma afterSpawn_is_playing (s : PlayerState) (t : ℤ) (env : LoadEnv)
    (b : Bool) : (afterSpawn s t env b).is_playing = b := rfl

@[simp] lemma afterSpawn_mplayer_process (s : PlayerState) (t : ℤ)
    (env : LoadEnv) (b : Bool) :
    (afterSpawn s t env b).mplayer_process = some env.deathTime := rfl

@[simp] lemma afterSpawn_current_track (s : PlayerState) (t : ℤ)
    (env : LoadEnv) (b : Bool) : (afterSpawn s t env b).current_track = t := rfl

@[simp] lemma afterSpawn_track_file (s : PlayerState) (t : ℤ)
    (env : LoadEnv) (b : Bool) : (afterSpawn s t env b).track_file = t := rfl

@[simp] lemma afterSpawn_pause_start_time (s : PlayerState) (t : ℤ)
    (env : LoadEnv) (b : Bool) :
    (afterSpawn s t env b).pause_start_time = none := rfl

/-- The post-loop decision never changes the state component. -/
lemma finishPausedLoad_fst (r : PlayerState × Bool) :
    (finishPausedLoad r).1 = r.1 := by
  unfold finishPausedLoad
  split
  · rfl
  · split <;> rfl

/-- The post-loop decision propagates a loop failure. -/
lemma finishPausedLoad_snd (r : PlayerState × Bool) (hr : r.2 = false) :
    (finishPausedLoad r).2 = false := by
  unfold finishPausedLoad
  rw [if_pos hr]

/-- For an in-range track, the state `load_track_paused` returns is the
one the liveness loop returns. -/
lemma load_track_paused_fst (s : PlayerState) (t : ℤ) (env : LoadEnv)
    (h : 1 ≤ t ∧ t ≤ s.total_tracks) :
    (load_track_paused s t env).1 =
      (pausedLoop env.deathTime env.pauseCmdOk env.t0 10 0
        (afterSpawn s t env false)).1 := by
  unfold load_track_paused
  rw [if_neg (not_not_intro h)]
  exact finishPausedLoad_fst _

/-- Clamped at zero, truncation toward zero agrees with the floor. -/
lemma max_zero_pytrunc (x : ℚ) : max 0 (pytrunc x) = max 0 ⌊x⌋ := by
  unfold pytrunc
  split
  · rfl
  · rename_i hx
    push_neg at hx
    have hc : ⌈x⌉ ≤ (0 : ℤ) := Int.ceil_le.mpr (by exact_mod_cast hx.le)
    have hf : ⌊x⌋ ≤ (0 : ℤ) := Int.floor_nonpos hx.le
    rw [max_eq_left hc, max_eq_left hf]

/-- Truncation toward zero clamped at zero is monotone. -/
lemma max_zero_pytrunc_mono {x y : ℚ} (h : x ≤ y) :
    max 0 (pytrunc x) ≤ max 0 (pytrunc y) := by
  rw [max_zero_pytrunc, max_zero_pytrunc]
  exact max_le_max le_rfl (Int.floor_le_floor h)

/-- Whatever the track, the state reached by `load_track_paused`
satisfies the pause invariant: the only field the liveness loop can
change is `pause_start_time`, and the post-spawn state is not playing. -/
lemma load_track_paused_preserves_inv (s : PlayerState) (t : ℤ)
    (env : LoadEnv) (h : playInv s) :
    playInv (load_track_paused s t env).1 := by
  by_cases hr : 1 ≤ t ∧ t ≤ s.total_tracks
  · have hplay := (pausedLoop_fields env.deathTime env.pauseCmdOk env.t0 10 0
      (afterSpawn s t env false)).1
    simp only [afterSpawn_is_playing] at hplay
    rw [load_track_paused_fst s t env hr]
    intro hcontra
    rw [hplay] at hcontra
    cases hcontra
  · unfold load_track_paused
    rw [if_pos hr]
    exact h

/-- `load_track` always lands in the freshly reset post-spawn state, which
satisfies the invariant. -/
lemma load_track_preserves_inv (s : PlayerState) (t : ℤ) (env : LoadEnv)
    (h : playInv s) : playInv (load_track s t env).1 := by
  unfold load_track
  split
  · exact h
  · split <;> (intro _; simp)

end CdPlayer

open CdPlayer in
/-- Claim C3: whenever `mplayer_ready` is set and a track start is
recorded, `get_elapsed_time now` is
`max(0, (now − current_track_start) − total_pause_duration −
(now − pause_start_time if paused with a pause start recorded, else 0))`,
truncated to an integer. -/
theorem get_elapsed_time_formula (s : PlayerState) (now cts : ℚ)
    (hready : s.mplayer_ready = true) (hcts : s.current_track_start = some cts) :
    get_elapsed_time s now =
      max 0 (pytrunc ((now - cts) - s.total_pause_duration -
        (match s.is_playing, s.pause_start_time with
         | false, some p => now - p
         | _, _ => 0))) := by
  unfold get_elapsed_time
  rw [hready, hcts]
  rcases hp : s.is_playing with _ | _ <;>
    rcases hq : s.pause_start_time with _ | p <;> simp

open CdPlayer in
/-- Witness for C3: a ready session paused 3 seconds in, read at `now = 9`
after 1 second of earlier accumulated pause. -/
theorem get_elapsed_time_formula_witness :
    get_elapsed_time pausedSession 9 =
      max 0 (pytrunc ((9 - 0) - pausedSession.total_pause_duration -
        (match pausedSession.is_playing, pausedSession.pause_start_time with
         | false, some p => 9 - p
         | _, _ => 0))) :=
  get_elapsed_time_formula pausedSession 9 0 rfl rfl

open CdPlayer in
/-- Counterexample to claim C8 as stated: in a ready session that is
paused (`is_playing = false`) but has no recorded pause start — reachable
when the initial `pause` command write fails during `load_track_paused` —
elapsed time keeps growing: it differs at instants `1 ≤ 2` of the pause. -/
theorem elapsed_not_frozen_without_pause_start :
    (readySession false).is_playing = false ∧ (1 : ℚ) ≤ 2 ∧
      get_elapsed_time (readySession false) 1 ≠
        get_elapsed_time (readySession false) 2 := by
  refine ⟨rfl, by norm_num, ?_⟩
  norm_num [get_elapsed_time, pytrunc, readySession, initState]

open CdPlayer in
/-- Claim C8, amended: elapsed time is monotonically non-decreasing as
`now` advances while playing, and is constant as `now` advances while
paused with a recorded pause start (`pause_start_time ≠ None`; when the
pause start is missing, elapsed time keeps advancing even though
`is_playing` is false). -/
theorem elapsed_monotone_and_frozen (s : PlayerState) (t1 t2 : ℚ)
    (h12 : t1 ≤ t2) :
    (s.is_playing = true → get_elapsed_time s t1 ≤ get_elapsed_time s t2) ∧
    (∀ p, s.is_playing = false → s.pause_start_time = some p →
      get_elapsed_time s t1 = get_elapsed_time s t2) := by
  constructor
  · intro hp
    rcases hr : s.mplayer_ready with _ | _
    · simp [get_elapsed_time, hr]
    · rcases hc : s.current_track_start with _ | cts
      · simp [get_elapsed_time, hr, hc]
      · have hmono := max_zero_pytrunc_mono
          (show t1 - cts - s.total_pause_duration ≤
            t2 - cts - s.total_pause_duration by linarith)
        simpa [get_elapsed_time, hr, hc, hp] using hmono
  · intro p hp hq
    rcases hr : s.mplayer_ready with _ | _
    · simp [get_elapsed_time, hr]
    · rcases hc : s.current_track_start with _ | cts
      · simp [get_elapsed_time, hr, hc]
      · have hAB : t1 - cts - s.total_pause_duration - (t1 - p) =
            t2 - cts - s.total_pause_duration - (t2 - p) := by ring
        have hcong := congrArg (fun z => max 0 (pytrunc z)) hAB
        simpa [get_elapsed_time, hr, hc, hp, hq] using hcong

open CdPlayer in
/-- Witness for amended C8: concrete playing and paused sessions at
instants `1 ≤ 2`. -/
theorem elapsed_monotone_and_frozen_witness :
    ((readySession true).is_playing = true →
      get_elapsed_time (readySession true) 1 ≤
        get_elapsed_time (readySession true) 2) ∧
    (∀ p, (readySession true).is_playing = false →
      (readySession true).pause_start_time = some p →
      get_elapsed_time (readySession true) 1 =
        get_elapsed_time (readySession true) 2) :=
  elapsed_monotone_and_frozen (readySession true) 1 2 (by norm_num)

open CdPlayer in
/-- Claim C4: the invariant `is_playing = true → pause_start_time = None`
holds in the initial state and is preserved by every public operation of
the playback controller (`load_track`, `load_track_paused`, `play_pause`,
`stop_playback`, `next_track`, `previous_track`), under every environment
outcome. -/
theorem playing_implies_no_pause_start_invariant :
    playInv initState ∧
      ∀ (s : PlayerState) (op : PlayerOp), playInv s → playInv (playerStep s op) := by
  constructor
  · intro h; cases h
  · intro s op h
    cases op with
    | opLoadTrack t env =>
      show playInv (load_track s t env).1
      exact load_track_preserves_inv s t env h
    | opLoadTrackPaused t env =>
      show playInv (load_track_paused s t env).1
      exact load_track_paused_preserves_inv s t env h
    | opPlayPause k ok now =>
      show playInv (play_pause s k ok now)
      by_cases ha : is_mplayer_alive s k = false
      · simpa [play_pause, ha] using h
      · by_cases hm : s.mplayer_ready = false
        · simpa [play_pause, ha, hm] using h
        · by_cases hs : send_command s k ok = true
          · by_cases hp : s.is_playing = true
            · simp [play_pause, ha, hm, hs, hp, playInv]
            · rcases hq : s.pause_start_time with _ | p
              · simp [play_pause, ha, hm, hs, hp, hq, playInv]
              · simp [play_pause, ha, hm, hs, hp, hq, playInv]
          · simpa [play_pause, ha, hm, hs] using h
    | opStop =>
      show playInv (stop_playback s)
      intro hcontra; cases hcontra
    | opNextTrack env =>
      show playInv (next_track s env)
      unfold next_track
      split
      · exact load_track_preserves_inv s _ env h
      · exact h
    | opPrevTrack env =>
      show playInv (previous_track s env)
      unfold previous_track
      split
      · exact load_track_preserves_inv s _ env h
      · exact h

open CdPlayer in
/-- Witness for C4: the invariant survives a `stop` from the initial
state. -/
theorem playing_implies_no_pause_start_invariant_witness :
    playInv (playerStep initState PlayerOp.opStop) :=
  playing_implies_no_pause_start_invariant.2 initState PlayerOp.opStop
    playing_implies_no_pause_start_invariant.1

namespace MenuSys

/-- At root depth, one `Next` advances the selection cyclically, stays at
root depth, and keeps the item list. -/
lemma menu_next_root (now : ℚ) (m : MenuState) (h : atRoot m) :
    (menu_next now m).current_menu_item =
        (m.current_menu_item + 1) % (m.menu_items.length : ℤ) ∧
      atRoot (menu_next now m) ∧
      (menu_next now m).menu_items = m.menu_items := by
  obtain ⟨h1, h2, h3, h4⟩ := h
  simp [menu_next, atRoot, h1, h2, h3, h4]

/-- Iterating `Next` at root depth adds the press count to the selection,
modulo the item count. -/
lemma menu_next_iterate (now : ℚ) :
    ∀ (k : ℕ) (m : MenuState), atRoot m →
      ((menu_next now)^[k + 1] m).current_menu_item =
        (m.current_menu_item + (k + 1)) % (m.menu_items.length : ℤ) := by
  intro k
  induction k with
  | zero =>
    intro m h
    simpa using (menu_next_root now m h).1
  | succ n ih =>
    intro m h
    obtain ⟨hstep, hroot, hitems⟩ := menu_next_root now m h
    have := ih (menu_next now m) hroot
    rw [Function.iterate_succ_apply, this, hstep, hitems, Int.emod_add_emod]
    congr 1
    push_cast
    ring

end MenuSys

open MenuSys in
/-- Counterexample to claim C9 as stated: in the `Audio Output` submenu
with an empty device list, `submenu_next` is not a no-op — it still
refreshes the menu timeout (`menu_timeout := now + 30` sits outside the
per-item emptiness guards). -/
theorem submenu_next_empty_audio_not_noop :
    submenu_next 100 [] [] 0 audioSubmenuState ≠ audioSubmenuState := by
  intro h
  have := congrArg MenuState.menu_timeout h
  norm_num [submenu_next, currentItem, audioSubmenuState, initMenu] at this

open MenuSys in
/-- Claim C9, amended: `Next`/`Previous` cycle the selected index modulo
the relevant list length with wraparound in both directions, and a full
cycle of `Next` presses at root depth returns to the original selection;
when the relevant list is empty, the navigation is a no-op on the state
in the action and tracks menus, while in the audio/bluetooth submenus the
selection is unchanged but the rolling menu timeout is still refreshed. -/
theorem menu_navigation_cycles :
    (∀ (now : ℚ) (m : MenuState), atRoot m →
      (menu_next now m).current_menu_item =
          (m.current_menu_item + 1) % (m.menu_items.length : ℤ) ∧
        (menu_previous now m).current_menu_item =
          (m.current_menu_item - 1) % (m.menu_items.length : ℤ)) ∧
    (∀ (now : ℚ) (m : MenuState), atRoot m →
      0 ≤ m.current_menu_item →
      m.current_menu_item < (m.menu_items.length : ℤ) →
      ((menu_next now)^[m.menu_items.length] m).current_menu_item =
        m.current_menu_item) ∧
    (∀ (now : ℚ) (audio bt : List String) (total : ℤ) (m : MenuState),
      m.in_action_menu = true →
      (m.current_actions ≠ [] →
        (submenu_next now audio bt total m).selected_action_index =
            (m.selected_action_index + 1) % (m.current_actions.length : ℤ) ∧
          (submenu_previous now audio bt total m).selected_action_index =
            (m.selected_action_index - 1) % (m.current_actions.length : ℤ)) ∧
      (m.current_actions = [] →
        submenu_next now audio bt total m = m ∧
          submenu_previous now audio bt total m = m)) ∧
    (∀ (now : ℚ) (audio bt : List String) (total : ℤ) (m : MenuState),
      m.in_action_menu = false → m.in_tracks_menu = true →
      (0 < total →
        (submenu_next now audio bt total m).selected_track_index =
            (m.selected_track_index + 1) % total ∧
          (submenu_previous now audio bt total m).selected_track_index =
            (m.selected_track_index - 1) % total) ∧
      (total ≤ 0 →
        submenu_next now audio bt total m = m ∧
          submenu_previous now audio bt total m = m)) ∧
    (∀ (now : ℚ) (audio bt : List String) (total : ℤ) (m : MenuState),
      m.in_action_menu = false → m.in_tracks_menu = false →
      m.in_submenu = true →
      (currentItem m = "Audio Output" → audio = [] →
        submenu_next now audio bt total m = { m with menu_timeout := now + 30 } ∧
          submenu_previous now audio bt total m =
            { m with menu_timeout := now + 30 }) ∧
      (currentItem m = "Bluetooth" → bt = [] →
        submenu_next now audio bt total m = { m with menu_timeout := now + 30 } ∧
          submenu_previous now audio bt total m =
            { m with menu_timeout := now + 30 })) ∧
    (∀ (now : ℚ) (audio bt : List String) (total : ℤ) (m : MenuState),
      m.in_action_menu = false → m.in_tracks_menu = false →
      m.in_submenu = true →
      (currentItem m = "Audio Output" → audio ≠ [] →
        (submenu_next now audio bt total m).selected_audio_device_index =
            (m.selected_audio_device_index + 1) % (audio.length : ℤ) ∧
          (submenu_previous now audio bt total m).selected_audio_device_index =
            (m.selected_audio_device_index - 1) % (audio.length : ℤ)) ∧
      (currentItem m = "Bluetooth" → bt ≠ [] →
        (submenu_next now audio bt total m).selected_bluetooth_device_index =
            (m.selected_bluetooth_device_index + 1) % (bt.length : ℤ) ∧
          (submenu_previous now audio bt total m).selected_bluetooth_device_index =
            (m.selected_bluetooth_device_index - 1) % (bt.length : ℤ))) := by
  refine ⟨?_, ?_, ?_, ?_, ?_, ?_⟩
  · intro now m h
    obtain ⟨h1, h2, h3, h4⟩ := h
    constructor
    · simp [menu_next, h1, h2, h3, h4]
    · simp [menu_previous, h1, h2, h3, h4]
  · intro now m h h0 hlt
    have hn : 1 ≤ m.menu_items.length := by
      rcases Nat.eq_zero_or_pos m.menu_items.length with hz | hp
      · rw [hz] at hlt; omega
      · omega
    obtain ⟨k, hk⟩ : ∃ k, m.menu_items.length = k + 1 :=
      ⟨m.menu_items.length - 1, by omega⟩
    rw [hk, menu_next_iterate now k m h]
    push_cast [hk]
    rw [show m.current_menu_item + (↑k + 1) =
        m.current_menu_item + 1 * (↑k + 1) by ring,
      Int.add_mul_emod_self]
    exact Int.emod_eq_of_lt h0 (by rw [hk] at hlt; push_cast at hlt; exact hlt)
  · intro now audio bt total m h
    constructor
    · intro hne
      constructor
      · simp [submenu_next, h, hne]
      · simp [submenu_previous, h, hne]
    · intro he
      constructor
      · simp [submenu_next, h, he]
      · simp [submenu_previous, h, he]
  · intro now audio bt total m ha ht
    constructor
    · intro h0
      constructor
      · simp [submenu_next, ha, ht, h0]
      · simp [submenu_previous, ha, ht, h0]
    · intro h0
      have h0' : ¬(0 < total) := by omega
      constructor
      · simp [submenu_next, ha, ht, h0']
      · simp [submenu_previous, ha, ht, h0']
  · intro now audio bt total m ha ht hs
    constructor
    · intro hcur hempty
      constructor
      · simp [submenu_next, ha, ht, hs, hcur, hempty]
      · simp [submenu_previous, ha, ht, hs, hcur, hempty]
    · intro hcur hempty
      constructor
      · simp [submenu_next, ha, ht, hs, hcur, hempty]
      · simp [submenu_previous, ha, ht, hs, hcur, hempty]
  · intro now audio bt total m ha ht hs
    constructor
    · intro hcur hne
      constructor
      · simp [submenu_next, ha, ht, hs, hcur, hne]
      · simp [submenu_previous, ha, ht, hs, hcur, hne]
    · intro hcur hne
      have hnotaudio : ¬(currentItem m = "Audio Output") := by
        rw [hcur]; decide
      constructor
      · simp [submenu_next, ha, ht, hs, hcur, hne, hnotaudio]
      · simp [submenu_previous, ha, ht, hs, hcur, hne, hnotaudio]

open MenuSys in
/-- Witness for amended C9: at the concrete root-menu state (4 items,
selection 0), one `Next` selects item 1 and four `Next` presses return to
item 0; in the audio submenu with a two-device list, `Next` advances the
audio selection cyclically. -/
theorem menu_navigation_cycles_witness :
    (menu_next 5 rootMenuState).current_menu_item =
        (rootMenuState.current_menu_item + 1) %
          (rootMenuState.menu_items.length : ℤ) ∧
      ((menu_next 5)^[rootMenuState.menu_items.length]
          rootMenuState).current_menu_item = rootMenuState.current_menu_item ∧
      (submenu_next 7 ["hdmi", "pulse"] [] 0
            audioSubmenuState).selected_audio_device_index =
        (audioSubmenuState.selected_audio_device_index + 1) %
          ((["hdmi", "pulse"] : List String).length : ℤ) :=
  ⟨(menu_navigation_cycles.1 5 rootMenuState ⟨rfl, rfl, rfl, rfl⟩).1,
    menu_navigation_cycles.2.1 5 rootMenuState ⟨rfl, rfl, rfl, rfl⟩
      (by norm_num [rootMenuState, initMenu])
      (by norm_num [rootMenuState, initMenu]),
    ((menu_navigation_cycles.2.2.2.2.2 7 ["hdmi", "pulse"] [] 0
        audioSubmenuState rfl rfl rfl).1 rfl (by simp)).1⟩

open CdPlayer in
/-- Counterexample to claim C5 as stated: a session that is alive and
ready but whose control-channel write fails does not flip `is_playing` —
`play_pause` leaves the state untouched, whereas the claim promises a
flip whenever the process is alive and has completed its liveness
probe. -/
theorem play_pause_send_failure_does_not_flip :
    is_mplayer_alive liveReadySession 0 = true ∧
    liveReadySession.mplayer_ready = true ∧
    play_pause liveReadySession 0 false 5 = liveReadySession ∧
    liveReadySession.is_playing = true :=
  ⟨rfl, rfl, rfl, rfl⟩

open CdPlayer in
/-- Claim C5, amended: if the decoder process is not alive or not ready,
`play_pause` rejects the command and leaves the state unchanged; if it is
alive and ready, `play_pause` sends the pause command, and when the
delivery succeeds it flips `is_playing` — recording `pause_start_time` on
pause and folding the pause interval into `total_pause_duration` on
resume — while when the delivery fails the state is left unchanged. -/
theorem play_pause_spec (s : PlayerState) (k : ℕ) (ok : Bool) (now : ℚ) :
    (is_mplayer_alive s k = false ∨ s.mplayer_ready = false →
      play_pause s k ok now = s) ∧
    (is_mplayer_alive s k = true → s.mplayer_ready = true →
      (play_pause s k false now = s) ∧
      (s.is_playing = true →
        play_pause s k true now =
          { s with pause_start_time := some now, is_playing := false }) ∧
      (∀ p, s.is_playing = false → s.pause_start_time = some p →
        play_pause s k true now =
          { s with total_pause_duration := s.total_pause_duration + (now - p),
                   pause_start_time := none, is_playing := true }) ∧
      (s.is_playing = false → s.pause_start_time = none →
        play_pause s k true now = { s with is_playing := true })) := by
  constructor
  · rintro (ha | hr)
    · simp [play_pause, ha]
    · unfold play_pause
      split
      · rfl
      · simp [hr]
  · intro ha hr
    refine ⟨?_, ?_, ?_, ?_⟩
    · simp [play_pause, ha, hr, send_command]
    · intro hp; simp [play_pause, ha, hr, send_command, hp]
    · intro p hp hq; simp [play_pause, ha, hr, send_command, hp, hq]
    · intro hp hq; simp [play_pause, ha, hr, send_command, hp, hq]

open CdPlayer in
/-- Witness for amended C5: a live, ready, playing session at `now = 5`
with a failing and a succeeding control-channel write. -/
theorem play_pause_spec_witness :
    (is_mplayer_alive liveReadySession 0 = false ∨
        liveReadySession.mplayer_ready = false →
      play_pause liveReadySession 0 true 5 = liveReadySession) ∧
    (is_mplayer_alive liveReadySession 0 = true →
      liveReadySession.mplayer_ready = true →
      (play_pause liveReadySession 0 false 5 = liveReadySession) ∧
      (liveReadySession.is_playing = true →
        play_pause liveReadySession 0 true 5 =
          { liveReadySession with pause_start_time := some 5
                                  is_playing := false }) ∧
      (∀ p, liveReadySession.is_playing = false →
        liveReadySession.pause_start_time = some p →
        play_pause liveReadySession 0 true 5 =
          { liveReadySession with
              total_pause_duration :=
                liveReadySession.total_pause_duration + (5 - p)
              pause_start_time := none
              is_playing := true }) ∧
      (liveReadySession.is_playing = false →
        liveReadySession.pause_start_time = none →
        play_pause liveReadySession 0 true 5 =
          { liveReadySession with is_playing := true })) :=
  play_pause_spec liveReadySession 0 true 5

namespace Gpio

lemma countLongPress_append (l1 l2 : List GEvent) :
    countLongPress (l1 ++ l2) = countLongPress l1 + countLongPress l2 := by
  induction l1 with
  | nil => simp [countLongPress]
  | cons e rest ih =>
    cases e with
    | singleClick => simp [countLongPress, ih]
    | doubleClick => simp [countLongPress, ih]
    | longPress =>
      simp [countLongPress, ih]
      omega

/-- A held sample after the long press has fired changes nothing but the
remembered pin level and emits nothing. -/
lemma monitor_tick_held_fired (s : GpioState) (now : ℚ)
    (hprev : s.prev_play_state = false) (hflag : s.long_press_triggered = true) :
    monitor_tick now false s = ({ s with prev_play_state := false }, []) := by
  unfold monitor_tick
  rw [if_neg (by simp [hprev])]
  split
  · rw [if_neg (by simp [hflag])]
  · rw [if_neg (by simp)]

/-- A held sample before the long press has fired either fires it — once,
setting the flag and cancelling any pending single click — or changes
nothing. -/
lemma monitor_tick_held_unfired (s : GpioState) (now : ℚ)
    (hprev : s.prev_play_state = false)
    (hflag : s.long_press_triggered = false) :
    (2 < now - s.play_button_press_start →
      monitor_tick now false s =
        ({ cancel_pending_single_click s with
             long_press_triggered := true
             prev_play_state := false }, [GEvent.longPress])) ∧
    (¬(2 < now - s.play_button_press_start) →
      monitor_tick now false s = ({ s with prev_play_state := false }, [])) := by
  constructor
  · intro h2
    unfold monitor_tick
    rw [if_neg (by simp [hprev]), if_pos (by simp [h2]), if_pos (by simp [hflag])]
  · intro h2
    unfold monitor_tick
    rw [if_neg (by simp [hprev]), if_neg (by simp [h2]), if_neg (by simp)]

/-- Once the long-press flag is set, a run of held samples emits no
further `LongPressStart`. -/
lemma runTicks_held_fired_count :
    ∀ (ticks : List (ℚ × Bool)) (s : GpioState),
      s.prev_play_state = false → s.long_press_triggered = true →
      (∀ x ∈ ticks, x.2 = false) →
      countLongPress (runTicks s ticks).2 = 0 := by
  intro ticks
  induction ticks with
  | nil => intro s _ _ _; simp [runTicks, countLongPress]
  | cons hd rest ih =>
    intro s hprev hflag hheld
    obtain ⟨t, lvl⟩ := hd
    have hlvl : lvl = false := hheld (t, lvl) (by simp)
    subst hlvl
    simp only [runTicks, countLongPress_append]
    rw [monitor_tick_held_fired s t hprev hflag]
    have := ih { s with prev_play_state := false } rfl hflag
      (fun x hx => hheld x (by simp [hx]))
    simpa [countLongPress] using this

/-- Along any run of samples during which the button stays held, the
long-press gesture fires at most once. -/
lemma runTicks_held_count :
    ∀ (ticks : List (ℚ × Bool)) (s : GpioState),
      s.prev_play_state = false →
      (∀ x ∈ ticks, x.2 = false) →
      countLongPress (runTicks s ticks).2 ≤ 1 := by
  intro ticks
  induction ticks with
  | nil => intro s _ _; simp [runTicks, countLongPress]
  | cons hd rest ih =>
    intro s hprev hheld
    obtain ⟨t, lvl⟩ := hd
    have hlvl : lvl = false := hheld (t, lvl) (by simp)
    subst hlvl
    have hrest : ∀ x ∈ rest, x.2 = false := fun x hx => hheld x (by simp [hx])
    simp only [runTicks, countLongPress_append]
    rcases hflag : s.long_press_triggered with _ | _
    · by_cases h2 : 2 < t - s.play_button_press_start
      · rw [(monitor_tick_held_unfired s t hprev hflag).1 h2]
        have hzero := runTicks_held_fired_count rest
          { cancel_pending_single_click s with
              long_press_triggered := true
              prev_play_state := false } rfl rfl hrest
        simp [countLongPress, hzero]
      · rw [(monitor_tick_held_unfired s t hprev hflag).2 h2]
        have := ih { s with prev_play_state := false } rfl hrest
        simpa [countLongPress] using this
    · rw [monitor_tick_held_fired s t hprev hflag]
      have hzero := runTicks_held_fired_count rest
        { s with prev_play_state := false } rfl hflag hrest
      simp [countLongPress, hzero]

end Gpio

open Gpio in
/-- Claim C6: a release of the play/pause button after it was held past
the 2-second long-press threshold (or after the long-press already fired)
emits neither `SingleClick` nor `DoubleClick`, regardless of any earlier
click's double-click window; and along any run of samples with the button
held, the long-press gesture fires at most once. -/
theorem long_press_release_swallowed :
    (∀ (s : GpioState) (now : ℚ), s.prev_play_state = false →
      (2 < now - s.play_button_press_start ∨ s.long_press_triggered = true) →
      GEvent.singleClick ∉ (monitor_tick now true s).2 ∧
        GEvent.doubleClick ∉ (monitor_tick now true s).2) ∧
    (∀ (ticks : List (ℚ × Bool)) (s : GpioState),
      s.prev_play_state = false →
      (∀ x ∈ ticks, x.2 = false) →
      countLongPress (runTicks s ticks).2 ≤ 1) := by
  constructor
  · intro s now hprev hlong
    have hcond : ¬(now - s.play_button_press_start < 2 ∧
        s.long_press_triggered = false) := by
      rcases hlong with h | h
      · rintro ⟨hlt, _⟩; linarith
      · rintro ⟨_, hf⟩; rw [h] at hf; cases hf
    constructor <;>
      (unfold monitor_tick
       rw [if_neg (by simp), if_neg (by simp), if_pos (by simp [hprev]),
         if_neg hcond]
       simp)
  · exact runTicks_held_count

open Gpio in
/-- Witness for C6: a release 3 seconds into the press emits nothing, and
a two-sample held run (the second sample past the threshold) fires at
most one long press. -/
theorem long_press_release_swallowed_witness :
    (GEvent.singleClick ∉ (monitor_tick 3 true heldGpioState).2 ∧
      GEvent.doubleClick ∉ (monitor_tick 3 true heldGpioState).2) ∧
    countLongPress (runTicks heldGpioState [(1, false), (5/2, false)]).2 ≤ 1 :=
  ⟨long_press_release_swallowed.1 heldGpioState 3 rfl
      (Or.inl (by norm_num [heldGpioState, initGpio])),
    long_press_release_swallowed.2 [(1, false), (5/2, false)] heldGpioState rfl
      (by simp)⟩

open Gpio in
/-- Claim C7: starting from a click at `t1` outside any earlier
double-click window, a second click at `t2` with `t2 − t1 < 0.4` emits
exactly one `DoubleClick` and no `SingleClick`, cancels the pending
single-click timer, and zeroes the last-click instant, so a third click
at `t3` (with `t3 ≥ 0.4`, as any wall-clock instant is) starts a fresh
single-click candidate instead of a second `DoubleClick`; while a second
click with `t2 − t1 > 0.4` lets both one-shot timers fire, yielding
exactly two `SingleClick`s and no `DoubleClick`. -/
theorem double_click_arbitration (s0 : GpioState) (t1 t2 : ℚ)
    (h1 : DOUBLE_CLICK_THRESHOLD ≤ t1 - s0.last_play_pause_press_time) :
    (handle_play_pause_click t1 s0).2 = [] ∧
    (t2 - t1 < DOUBLE_CLICK_THRESHOLD →
      (handle_play_pause_click t2 (handle_play_pause_click t1 s0).1).2 =
          [GEvent.doubleClick] ∧
        (handle_play_pause_click t2
            (handle_play_pause_click t1 s0).1).1.pending_single_click = false ∧
        (handle_play_pause_click t2
            (handle_play_pause_click t1 s0).1).1.single_click_timer = none ∧
        (handle_play_pause_click t2
            (handle_play_pause_click t1 s0).1).1.last_play_pause_press_time = 0 ∧
        (∀ t3, DOUBLE_CLICK_THRESHOLD ≤ t3 →
          (handle_play_pause_click t3
              (handle_play_pause_click t2
                (handle_play_pause_click t1 s0).1).1).2 = [] ∧
            (handle_play_pause_click t3
                (handle_play_pause_click t2
                  (handle_play_pause_click t1 s0).1).1).1.pending_single_click =
              true)) ∧
    (DOUBLE_CLICK_THRESHOLD < t2 - t1 →
      (handle_play_pause_click t1 s0).2 ++
          (fire_single_click_timer (handle_play_pause_click t1 s0).1).2 ++
          (handle_play_pause_click t2
            (fire_single_click_timer (handle_play_pause_click t1 s0).1).1).2 ++
          (fire_single_click_timer
            (handle_play_pause_click t2
              (fire_single_click_timer
                (handle_play_pause_click t1 s0).1).1).1).2 =
        [GEvent.singleClick, GEvent.singleClick]) := by
  have hA : handle_play_pause_click t1 s0 =
      ({ s0 with last_play_pause_press_time := t1
                 pending_single_click := true
                 single_click_timer := some (t1 + DOUBLE_CLICK_THRESHOLD) }, []) := by
    unfold handle_play_pause_click
    rw [if_neg (not_lt.mpr h1)]
  refine ⟨by rw [hA], ?_, ?_⟩
  · intro h2
    have hB : handle_play_pause_click t2 (handle_play_pause_click t1 s0).1 =
        ({ s0 with last_play_pause_press_time := 0
                   pending_single_click := false
                   single_click_timer := none }, [GEvent.doubleClick]) := by
      rw [hA]
      unfold handle_play_pause_click cancel_pending_single_click
      rw [if_pos (by simpa using h2)]
    refine ⟨by rw [hB], by rw [hB], by rw [hB], by rw [hB], ?_⟩
    intro t3 ht3
    have hn3 : ¬(t3 - (0 : ℚ) < DOUBLE_CLICK_THRESHOLD) := by
      rw [sub_zero]; exact not_lt.mpr ht3
    constructor
    · rw [hB]
      unfold handle_play_pause_click
      rw [if_neg (by simpa using hn3)]
    · rw [hB]
      unfold handle_play_pause_click
      rw [if_neg (by simpa using hn3)]
  · intro h2
    have hn2 : ¬(t2 - t1 < DOUBLE_CLICK_THRESHOLD) := not_lt.mpr h2.le
    rw [hA]
    simp [fire_single_click_timer, handle_play_pause_click, hn2]

open Gpio in
/-- Witness for C7: from the initial arbitration state, clicks at `1` and
`1.2` (double click) and, alternatively, at `1` and `2`
(two single clicks). -/
theorem double_click_arbitration_witness :
    (handle_play_pause_click 1 initGpio).2 = [] ∧
    ((6 : ℚ) / 5 - 1 < DOUBLE_CLICK_THRESHOLD →
      (handle_play_pause_click (6 / 5) (handle_play_pause_click 1 initGpio).1).2 =
          [GEvent.doubleClick] ∧
        (handle_play_pause_click (6 / 5)
            (handle_play_pause_click 1 initGpio).1).1.pending_single_click = false ∧
        (handle_play_pause_click (6 / 5)
            (handle_play_pause_click 1 initGpio).1).1.single_click_timer = none ∧
        (handle_play_pause_click (6 / 5)
            (handle_play_pause_click 1 initGpio).1).1.last_play_pause_press_time = 0 ∧
        (∀ t3, DOUBLE_CLICK_THRESHOLD ≤ t3 →
          (handle_play_pause_click t3
              (handle_play_pause_click (6 / 5)
                (handle_play_pause_click 1 initGpio).1).1).2 = [] ∧
            (handle_play_pause_click t3
                (handle_play_pause_click (6 / 5)
                  (handle_play_pause_click 1 initGpio).1).1).1.pending_single_click =
              true)) ∧
    (DOUBLE_CLICK_THRESHOLD < (6 : ℚ) / 5 - 1 →
      (handle_play_pause_click 1 initGpio).2 ++
          (fire_single_click_timer (handle_play_pause_click 1 initGpio).1).2 ++
          (handle_play_pause_click (6 / 5)
            (fire_single_click_timer (handle_play_pause_click 1 initGpio).1).1).2 ++
          (fire_single_click_timer
            (handle_play_pause_click (6 / 5)
              (fire_single_click_timer
                (handle_play_pause_click 1 initGpio).1).1).1).2 =
        [GEvent.singleClick, GEvent.singleClick]) :=
  double_click_arbitration initGpio 1 (6 / 5)
    (by norm_num [initGpio, DOUBLE_CLICK_THRESHOLD])

open CdPlayer in
/-- Claim C1: for every track number `t` with `t < 1` or
`t > total_tracks`, `load_track_paused t` and `load_track t` return
failure and perform no side effect: the resulting state (decoder process,
`current_track`, `is_playing`, and all timing fields) is exactly the
pre-call state. -/
theorem invalid_track_rejected_without_side_effect
    (s : PlayerState) (t : ℤ) (env : LoadEnv)
    (h : t < 1 ∨ s.total_tracks < t) :
    load_track_paused s t env = (s, false) ∧
      load_track s t env = (s, false) := by
  have hrange : ¬(1 ≤ t ∧ t ≤ s.total_tracks) := by omega
  constructor
  · simp [load_track_paused, hrange]
  · simp [load_track, hrange]

open CdPlayer in
/-- Witness for C1: `load_track(0)` and `load_track_paused(0)` on the
initial state are rejected and leave the state untouched. -/
theorem invalid_track_rejected_without_side_effect_witness :
    load_track_paused initState 0 ⟨none, true, 0⟩ = (initState, false) ∧
      load_track initState 0 ⟨none, true, 0⟩ = (initState, false) :=
  invalid_track_rejected_without_side_effect initState 0 ⟨none, true, 0⟩
    (Or.inl (by norm_num))

open CdPlayer in
/-- Counterexample to claim C2 as stated: `load_track` of a valid track
whose process dies in the post-spawn window (here 1 second after spawn,
inside the 2-second check window) returns failure with no live process,
but leaves `is_playing = true`, not `false` as the claim requires. -/
theorem load_track_failure_keeps_is_playing_true :
    (load_track initState 1 ⟨some 1, true, 0⟩).2 = false ∧
      (load_track initState 1 ⟨some 1, true, 0⟩).1.is_playing = true ∧
      is_mplayer_alive (load_track initState 1 ⟨some 1, true, 0⟩).1 2 = false := by
  decide

open CdPlayer in
/-- Claim C2, amended: for every valid track whose spawned process exits
during the post-spawn liveness window, `load_track_paused` (10-second
window) and `load_track` (2-second window) return failure and leave no
live process (every later status read reports the process as not alive);
`load_track_paused` leaves `is_playing = false`, while `load_track`
leaves `is_playing = true`. -/
theorem load_failure_leaves_no_live_process
    (s : PlayerState) (t : ℤ) (env : LoadEnv) (d : ℕ)
    (h1 : 1 ≤ t) (h2 : t ≤ s.total_tracks) (hd : env.deathTime = some d) :
    (d ≤ 10 →
      (load_track_paused s t env).2 = false ∧
      (load_track_paused s t env).1.is_playing = false ∧
      ∀ k, d ≤ k → is_mplayer_alive (load_track_paused s t env).1 k = false) ∧
    (d ≤ 2 →
      (load_track s t env).2 = false ∧
      (load_track s t env).1.is_playing = true ∧
      ∀ k, d ≤ k → is_mplayer_alive (load_track s t env).1 k = false) := by
  have hrange : ¬¬(1 ≤ t ∧ t ≤ s.total_tracks) := not_not_intro ⟨h1, h2⟩
  constructor
  · intro hd10
    have hloop := pausedLoop_dead env.pauseCmdOk env.t0 d 10 0
      (afterSpawn s t env false) (by omega) (by omega)
    have hfields := pausedLoop_fields env.deathTime env.pauseCmdOk env.t0 10 0
      (afterSpawn s t env false)
    rw [← hd] at hloop
    have hplay := hfields.1
    simp only [afterSpawn_is_playing] at hplay
    refine ⟨?_, ?_, ?_⟩
    · unfold load_track_paused
      rw [if_neg hrange]
      exact finishPausedLoad_snd _ hloop
    · rw [load_track_paused_fst s t env ⟨h1, h2⟩]
      exact hplay
    · intro k hk
      have hm :
          (pausedLoop env.deathTime env.pauseCmdOk env.t0 10 0
            (afterSpawn s t env false)).1.mplayer_process = some (some d) := by
        rw [hfields.2.1, afterSpawn_mplayer_process, hd]
      rw [load_track_paused_fst s t env ⟨h1, h2⟩]
      simp [is_mplayer_alive, hm, aliveAt]
      omega
  · intro hd2
    have ha : aliveAt env.deathTime 2 = false := by
      simp [hd, aliveAt]; omega
    refine ⟨?_, ?_, ?_⟩
    · simp [load_track, hrange, ha]
    · simp [load_track, hrange, ha]
    · intro k hk
      have halive : aliveAt env.deathTime k = false := by
        simp [hd, aliveAt]; omega
      simp [load_track, hrange, ha, is_mplayer_alive, halive]

open CdPlayer in
/-- Witness for amended C2: loading track 1 from the initial state with a
process that dies 1 second after spawn fails in both modes, leaving no
live process. -/
theorem load_failure_leaves_no_live_process_witness :
    (1 ≤ 10 →
      (load_track_paused initState 1 ⟨some 1, true, 0⟩).2 = false ∧
      (load_track_paused initState 1 ⟨some 1, true, 0⟩).1.is_playing = false ∧
      ∀ k, 1 ≤ k →
        is_mplayer_alive (load_track_paused initState 1 ⟨some 1, true, 0⟩).1 k = false) ∧
    (1 ≤ 2 →
      (load_track initState 1 ⟨some 1, true, 0⟩).2 = false ∧
      (load_track initState 1 ⟨some 1, true, 0⟩).1.is_playing = true ∧
      ∀ k, 1 ≤ k →
        is_mplayer_alive (load_track initState 1 ⟨some 1, true, 0⟩).1 k = false) :=
  load_failure_leaves_no_live_process initState 1 ⟨some 1, true, 0⟩ 1
    (by norm_num) (by norm_num [initState]) rfl

open CdPlayer in
/-- Claim C10: for every in-range track number `t` and every process
outcome, `load_track t` and `load_track_paused t` set `current_track`
to `t` and persist `t` to the track marker file — this happens before the
new process's health is known, so it holds even when the call returns
failure. -/
theorem load_records_track_before_health_known
    (s : PlayerState) (t : ℤ) (env : LoadEnv)
    (h1 : 1 ≤ t) (h2 : t ≤ s.total_tracks) :
    ((load_track s t env).1.current_track = t ∧
      (load_track s t env).1.track_file = t) ∧
    ((load_track_paused s t env).1.current_track = t ∧
      (load_track_paused s t env).1.track_file = t) := by
  have hrange : ¬¬(1 ≤ t ∧ t ≤ s.total_tracks) := not_not_intro ⟨h1, h2⟩
  constructor
  · constructor <;>
      (simp only [load_track, if_neg hrange]; split <;> simp)
  · have hfields := pausedLoop_fields env.deathTime env.pauseCmdOk env.t0 10 0
      (afterSpawn s t env false)
    constructor
    · rw [load_track_paused_fst s t env ⟨h1, h2⟩]
      simpa using hfields.2.2.1
    · rw [load_track_paused_fst s t env ⟨h1, h2⟩]
      simpa using hfields.2.2.2

open CdPlayer in
/-- Witness for C10: loading track 1 from the initial state with a
process that dies immediately still records track 1 in the state and the
marker file. -/
theorem load_records_track_before_health_known_witness :
    (((load_track initState 1 ⟨some 0, false, 0⟩).1.current_track = 1 ∧
       (load_track initState 1 ⟨some 0, false, 0⟩).1.track_file = 1) ∧
     ((load_track_paused initState 1 ⟨some 0, false, 0⟩).1.current_track = 1 ∧
       (load_track_paused initState 1 ⟨some 0, false, 0⟩).1.track_file = 1)) :=
  load_records_track_before_health_known initState 1 ⟨some 0, false, 0⟩
    (by norm_num) (by norm_num [initState])
